import Mathlib

/-!
Shallow embedding of the `RoleDao` resource handler
(`src/services/user/role.dao.ts`) of the typescript-postgres-auth-example
repository.

The handler gates every operation behind a permission resolution step,
invokes the external store, narrows data through the resolved attribute
filter, and emits one audit event per successful operation.  Permission
resolution (`getPermission` from the authorization helper) and the store
(a TypeORM repository) are external collaborators: each operation is
embedded as a pure function parameterised by the resolution result, by the
store's responses, and by the two clock readings (`Date.now()` at entry and
at event construction).  Each operation returns its caller-facing result
together with the ordered trace of store calls it issued and the list of
audit events it emitted, so that ordering, effect and audit claims can be
stated directly.
-/

/-- A `Permission` entity: the generated numeric id plus the key fields
`resource`, `action` and the attribute-mask specification string. -/
structure Permission where
  id : Nat
  resource : String
  action : String
  attributes : String
  deriving Repr, DecidableEq

/-- A `Role` entity: string id, description, and the `permissions`
relation (a list, as TypeORM materialises the many-to-many relation). -/
structure Role where
  id : String
  description : String
  permissions : List Permission
  deriving Repr, DecidableEq

/-- The acting `User`; the handler only reads `user.id`. -/
structure User where
  id : Nat
  firstName : String
  lastName : String
  age : Nat
  deriving Repr, DecidableEq

/-- The `CreateRoleDto` payload accepted by `save`; `id` is optional
(`data.id` decides between the update and create actions). -/
structure RoleDto where
  id : Option String
  description : String
  permissions : List Permission
  deriving Repr, DecidableEq

/-- JavaScript truthiness of `data.id`: present and not the empty string. -/
def dtoHasId (d : RoleDto) : Bool :=
  match d.id with
  | some s => s != ""
  | none => false

/-- The resolution result (`AuthPermission`) produced by the external
authorization helper: the grant flag and the bound attribute filter.  The
helper is outside this handler; the dynamically typed `filter` closure is
embedded as one function per record shape the handler applies it to. -/
structure AuthPermission where
  granted : Bool
  filterRole : Role → Role
  filterRoles : List Role → List Role
  filterPermissions : List Permission → List Permission
  filterDto : RoleDto → Role

/-- Action names used by the handler (`ActivityType` from the activity
helper, an external module; values follow the spec glossary:
create/read/update/delete/add/remove). -/
def ActivityType.READ : String := "read"

/-- Action name for create operations. -/
def ActivityType.CREATE : String := "create"

/-- Action name for update operations. -/
def ActivityType.UPDATE : String := "update"

/-- Action name for delete operations. -/
def ActivityType.DELETE : String := "delete"

/-- Action name for add-to-collection events. -/
def ActivityType.ADD : String := "add"

/-- Action name for remove-from-collection events. -/
def ActivityType.REMOVE : String := "remove"

/-- Actor type tag used in every emitted event (`ActorType.Person`). -/
def ActorType.Person : String := "Person"

/-- The `object` field of an emitted event: either an `id`/`type` reference
literal, or the spread of a saved record plus a `type` tag (as in `save`,
which emits an object built by spreading the store's saved record). -/
inductive ActivityObject where
  | ref (id : String) (type : String)
  | spreadRole (record : Role) (type : String)
  deriving Repr, DecidableEq

/-- An emitted audit event (`Activity` passed to `event.emit`). -/
structure ActivityRecord where
  actorId : Nat
  actorType : String
  object : Option ActivityObject
  resource : String
  target : Option ActivityObject
  timestamp : Int
  took : Int
  type : String
  deriving Repr, DecidableEq

/-- One call issued to the external store (the role repository). -/
inductive StoreCall where
  | find
  | findOne (id : String)
  | save (record : Role)
  | remove (record : Role)
  deriving Repr, DecidableEq

/-- The typed failures an operation can raise. -/
inductive DaoError where
  | notAuthorized (userId : Nat) (action : String) (resource : String)
  | recordNotFound (id : String)
  | recordsNotFound (resource : String)
  deriving Repr, DecidableEq

/-- The `SearchResult` shape returned by `getAll`. -/
structure SearchResult where
  data : List Role
  length : Nat
  total : Nat
  deriving Repr, DecidableEq

instance {ε α : Type} [DecidableEq ε] [DecidableEq α] :
    DecidableEq (Except ε α) := fun x y =>
  match x, y with
  | .ok a, .ok b =>
    if h : a = b then .isTrue (by rw [h]) else .isFalse (by simp [h])
  | .ok _, .error _ => .isFalse (by simp)
  | .error _, .ok _ => .isFalse (by simp)
  | .error a, .error b =>
    if h : a = b then .isTrue (by rw [h]) else .isFalse (by simp [h])

/-- Outcome of one operation: the caller-facing result (or typed error),
the ordered trace of store calls issued, and the emitted audit events. -/
structure OpResult (α : Type) where
  result : Except DaoError α
  calls : List StoreCall
  events : List ActivityRecord
  deriving Repr, DecidableEq

/-- `true` exactly when the operation returned a result to the caller. -/
def opSucceeded {α : Type} (r : OpResult α) : Bool :=
  match r.result with
  | .ok _ => true
  | .error _ => false

/-- `true` for the store calls that mutate the store (save/remove). -/
def storeWrite : StoreCall → Bool
  | .save _ => true
  | .remove _ => true
  | _ => false

/-- The records passed to the store's save operation, in call order. -/
def savedRecords (calls : List StoreCall) : List Role :=
  calls.filterMap fun c =>
    match c with
    | .save r => some r
    | _ => none

/-- The last record an operation persisted, if it persisted any. -/
def lastSaved {α : Type} (r : OpResult α) : Option Role :=
  (savedRecords r.calls).getLast?

/-- The resource name the handler guards (`private resource = "role"`). -/
def resource : String := "role"

/-- The nested-collection resource name
(`private rolePermissionResource = "rolepermission"`). -/
def rolePermissionResource : String := "rolepermission"

/-- `RoleDao.getAll` (list): fetches all roles (with the permissions
relation) from the store, then resolves permission.  If granted and the
store signalled absence (`!records`), raises the plural not-found error;
if granted on a returned collection (empty included), emits one read event
and returns the filtered data with `length`/`total` from the raw records;
if denied, raises the authorization error.  The fetch precedes permission
resolution, so the trace contains it on every path. -/
def getAll (user : User) (permission : AuthPermission)
    (findResult : Option (List Role)) (started ended : Int) :
    OpResult SearchResult :=
  if permission.granted then
    match findResult with
    | none => ⟨.error (.recordsNotFound resource), [.find], []⟩
    | some records =>
      ⟨.ok { data := permission.filterRoles records,
             length := records.length, total := records.length },
       [.find],
       [{ actorId := user.id, actorType := ActorType.Person, object := none,
          resource := resource, target := none, timestamp := ended,
          took := ended - started, type := ActivityType.READ }]⟩
  else
    ⟨.error (.notAuthorized user.id ActivityType.READ resource), [.find], []⟩

/-- `RoleDao.getOne` (get): fetches the record by id, then resolves
permission; granted and present emits one read event and returns the
filtered record; granted and absent raises not-found; denied raises the
authorization error.  The fetch precedes permission resolution. -/
def getOne (user : User) (permission : AuthPermission) (id : String)
    (findOneResult : Option Role) (started ended : Int) : OpResult Role :=
  if permission.granted then
    match findOneResult with
    | none => ⟨.error (.recordNotFound id), [.findOne id], []⟩
    | some record =>
      ⟨.ok (permission.filterRole record),
       [.findOne id],
       [{ actorId := user.id, actorType := ActorType.Person,
          object := some (.ref record.id resource), resource := resource,
          target := none, timestamp := ended, took := ended - started,
          type := ActivityType.READ }]⟩
  else
    ⟨.error (.notAuthorized user.id ActivityType.READ resource),
     [.findOne id], []⟩

/-- `RoleDao.save` (create-or-update): resolves permission first (action
`update` when `data.id` is truthy, else `create`); if granted, filters
the input, persists the filtered value, emits one event whose object is
the spread of the store's saved record, and returns the filtered input
(not the saved record); if denied, raises the authorization error with no
store call.  `saveResp` is the store's response to the save call. -/
def save (user : User) (permission : AuthPermission) (data : RoleDto)
    (saveResp : Role → Role) (started ended : Int) : OpResult Role :=
  let action := if dtoHasId data then ActivityType.UPDATE
    else ActivityType.CREATE
  if permission.granted then
    let filteredData : Role := permission.filterDto data
    let savedData : Role := saveResp filteredData
    ⟨.ok filteredData,
     [.save filteredData],
     [{ actorId := user.id, actorType := ActorType.Person,
        object := some (.spreadRole savedData resource),
        resource := resource, target := none, timestamp := ended,
        took := ended - started, type := action }]⟩
  else
    ⟨.error (.notAuthorized user.id action resource), [], []⟩

/-- `RoleDao.remove` (delete): fetches the record by id, then resolves
permission; granted and present removes it, emits one delete event and
returns `true`; granted and absent raises not-found; denied raises the
authorization error.  The fetch precedes permission resolution. -/
def remove (user : User) (permission : AuthPermission) (id : String)
    (findOneResult : Option Role) (started ended : Int) : OpResult Bool :=
  if permission.granted then
    match findOneResult with
    | some recordToRemove =>
      ⟨.ok true,
       [.findOne id, .remove recordToRemove],
       [{ actorId := user.id, actorType := ActorType.Person,
          object := some (.ref id "role"), resource := resource,
          target := none, timestamp := ended, took := ended - started,
          type := ActivityType.DELETE }]⟩
    | none => ⟨.error (.recordNotFound id), [.findOne id], []⟩
  else
    ⟨.error (.notAuthorized user.id ActivityType.DELETE resource),
     [.findOne id], []⟩

/-- `RoleDao.getPermissions` (get-nested-collection): fetches the role by
id, then resolves permission against the `rolepermission` resource;
granted and present emits one read event and returns the filtered
permission collection; granted and absent raises not-found; denied raises
the authorization error.  The fetch precedes permission resolution. -/
def getPermissions (user : User) (permission : AuthPermission) (id : String)
    (findOneResult : Option Role) (started ended : Int) :
    OpResult (List Permission) :=
  if permission.granted then
    match findOneResult with
    | none => ⟨.error (.recordNotFound id), [.findOne id], []⟩
    | some record =>
      ⟨.ok (permission.filterPermissions record.permissions),
       [.findOne id],
       [{ actorId := user.id, actorType := ActorType.Person, object := none,
          resource := rolePermissionResource,
          target := some (.ref id resource), timestamp := ended,
          took := ended - started, type := ActivityType.READ }]⟩
  else
    ⟨.error (.notAuthorized user.id ActivityType.READ
       rolePermissionResource),
     [.findOne id], []⟩

/-- `RoleDao.addPermission` (add-to-collection): resolves permission first
(action `create` on `rolepermission`); granted then fetches the role; if
present, pushes the new permission onto the collection unconditionally,
persists the pushed record, emits one `add` event and returns the filtered
pushed record; if absent, raises not-found; denied raises the
authorization error with no store call. -/
def addPermission (user : User) (permission : AuthPermission) (id : String)
    (data : Permission) (findOneResult : Option Role) (started ended : Int) :
    OpResult Role :=
  if permission.granted then
    match findOneResult with
    | some recordToUpdate =>
      let pushed : Role :=
        { recordToUpdate with
            permissions := recordToUpdate.permissions ++ [data] }
      ⟨.ok (permission.filterRole pushed),
       [.findOne id, .save pushed],
       [{ actorId := user.id, actorType := ActorType.Person,
          object := some (.ref pushed.id "permission"),
          resource := rolePermissionResource,
          target := some (.ref id resource), timestamp := ended,
          took := ended - started, type := ActivityType.ADD }]⟩
    | none => ⟨.error (.recordNotFound id), [.findOne id], []⟩
  else
    ⟨.error (.notAuthorized user.id ActivityType.CREATE
       rolePermissionResource),
     [], []⟩

/-- The membership scan inside `removePermission`: walks the collection,
remembering (last) any relation whose stringified id equals the target id
and collecting the others in order. -/
def removeScan (perms : List Permission) (permissionId : String) :
    Option Permission × List Permission :=
  perms.foldl
    (fun acc relation =>
      if toString relation.id == permissionId then (some relation, acc.2)
      else (acc.1, acc.2 ++ [relation]))
    (none, [])

/-- `RoleDao.removePermission` (remove-from-collection): resolves
permission first (action `delete` on `rolepermission`); granted then
fetches the role; if present, scans the collection for the target id,
replaces the collection and saves when a match was found, then
unconditionally saves the (possibly updated) record again, emits one
`remove` event and returns the filtered record; if absent, raises
not-found; denied raises the authorization error with no store call. -/
def removePermission (user : User) (permission : AuthPermission)
    (id : String) (permissionId : String) (findOneResult : Option Role)
    (started ended : Int) : OpResult Role :=
  if permission.granted then
    match findOneResult with
    | some recordToUpdate =>
      let scan := removeScan recordToUpdate.permissions permissionId
      let record2 : Role :=
        if scan.1.isSome then { recordToUpdate with permissions := scan.2 }
        else recordToUpdate
      let saveCalls : List StoreCall :=
        if scan.1.isSome then [.save record2, .save record2]
        else [.save record2]
      ⟨.ok (permission.filterRole record2),
       .findOne id :: saveCalls,
       [{ actorId := user.id, actorType := ActorType.Person,
          object := some (.ref permissionId "permission"),
          resource := rolePermissionResource,
          target := some (.ref id resource), timestamp := ended,
          took := ended - started, type := ActivityType.REMOVE }]⟩
    | none => ⟨.error (.recordNotFound id), [.findOne id], []⟩
  else
    ⟨.error (.notAuthorized user.id ActivityType.DELETE
       rolePermissionResource),
     [], []⟩

/-- Sample acting user (the seeded administrative user). -/
def user0 : User :=
  { id := 2, firstName := "Admin", lastName := "User", age := 30 }

/-- A granted resolution whose filter is the identity (mask `*`). -/
def permAll : AuthPermission :=
  { granted := true,
    filterRole := fun r => r,
    filterRoles := fun rs => rs,
    filterPermissions := fun ps => ps,
    filterDto := fun d =>
      { id := d.id.getD "", description := d.description,
        permissions := d.permissions } }

/-- A denied resolution (no qualifying permission). -/
def permNone : AuthPermission :=
  { granted := false,
    filterRole := fun r => r,
    filterRoles := fun rs => rs,
    filterPermissions := fun ps => ps,
    filterDto := fun d =>
      { id := d.id.getD "", description := d.description,
        permissions := d.permissions } }

/-- Sample permission entity (seed data shape), id 1. -/
def permA : Permission :=
  { id := 1, resource := "users", action := "read:any", attributes := "*" }

/-- A permission sharing `permA`'s identity (id 1) with other fields. -/
def permDup : Permission :=
  { id := 1, resource := "users", action := "create:any", attributes := "*" }

/-- A permission with a fresh identity (id 2). -/
def permC : Permission :=
  { id := 2, resource := "search", action := "read:any", attributes := "*" }

/-- Sample role holding the single permission `permA`. -/
def role0 : Role :=
  { id := "user", description := "Authenticated user with basic privileges",
    permissions := [permA] }

/-- `role0` after pushing `permDup` onto its collection. -/
def role0Pushed : Role :=
  { role0 with permissions := [permA, permDup] }

/-- Sample create-or-update payload without an id. -/
def dto0 : RoleDto :=
  { id := none, description := "guest", permissions := [] }

/-- Claim C1: for every operation of the handler and every actor, a denied
resolution makes the operation raise the authorization error carrying the
actor id, the action, and the resource name, and emit no audit event. -/
theorem denied_raises_auth_error_no_event
    (user : User) (permission : AuthPermission)
    (findResult : Option (List Role)) (findOneResult : Option Role)
    (data : RoleDto) (saveResp : Role → Role) (item : Permission)
    (id permissionId : String) (started ended : Int)
    (h : permission.granted = false) :
    ((getAll user permission findResult started ended).result =
        .error (.notAuthorized user.id ActivityType.READ resource) ∧
      (getAll user permission findResult started ended).events = []) ∧
    ((getOne user permission id findOneResult started ended).result =
        .error (.notAuthorized user.id ActivityType.READ resource) ∧
      (getOne user permission id findOneResult started ended).events = []) ∧
    ((save user permission data saveResp started ended).result =
        .error (.notAuthorized user.id
          (if dtoHasId data then ActivityType.UPDATE else ActivityType.CREATE)
          resource) ∧
      (save user permission data saveResp started ended).events = []) ∧
    ((remove user permission id findOneResult started ended).result =
        .error (.notAuthorized user.id ActivityType.DELETE resource) ∧
      (remove user permission id findOneResult started ended).events = []) ∧
    ((getPermissions user permission id findOneResult started ended).result =
        .error (.notAuthorized user.id ActivityType.READ
          rolePermissionResource) ∧
      (getPermissions user permission id findOneResult started ended).events
        = []) ∧
    ((addPermission user permission id item findOneResult started
        ended).result =
        .error (.notAuthorized user.id ActivityType.CREATE
          rolePermissionResource) ∧
      (addPermission user permission id item findOneResult started
        ended).events = []) ∧
    ((removePermission user permission id permissionId findOneResult started
        ended).result =
        .error (.notAuthorized user.id ActivityType.DELETE
          rolePermissionResource) ∧
      (removePermission user permission id permissionId findOneResult started
        ended).events = []) := by
  simp [getAll, getOne, save, remove, getPermissions, addPermission,
    removePermission, h]

/-- A denied list call on the role resource raises the authorization error
with the actor id, action and resource, and emits nothing. -/
theorem denied_raises_auth_error_no_event_instance :
    permNone.granted = false ∧
    (getAll user0 permNone (some []) 3 7).result =
      .error (.notAuthorized user0.id ActivityType.READ resource) ∧
    (getAll user0 permNone (some []) 3 7).events = [] := by
  refine ⟨rfl, ?_⟩
  have h := denied_raises_auth_error_no_event user0 permNone (some []) none
    dto0 (fun r => r) permA "user" "1" 3 7 rfl
  exact h.1

/-- Claim C2 counterexample: a denied list call has already issued the
store fetch — the trace of a denied `getAll` is the find call, not empty,
because the repository is queried before permission resolution. -/
theorem denied_list_still_fetches :
    permNone.granted = false ∧
    (getAll user0 permNone (some [role0]) 0 0).calls = [StoreCall.find] := by
  exact ⟨rfl, rfl⟩

/-- Claim C2 (amended): a denied operation never issues a save or remove
call; create-or-update, add-to-collection and remove-from-collection issue
no store call at all when denied, while list, get, delete and
get-nested-collection have already issued their single fetch before
permission resolution. -/
theorem denied_no_store_write
    (user : User) (permission : AuthPermission)
    (findResult : Option (List Role)) (findOneResult : Option Role)
    (data : RoleDto) (saveResp : Role → Role) (item : Permission)
    (id permissionId : String) (started ended : Int)
    (h : permission.granted = false) :
    (getAll user permission findResult started ended).calls =
      [StoreCall.find] ∧
    (getOne user permission id findOneResult started ended).calls =
      [StoreCall.findOne id] ∧
    (save user permission data saveResp started ended).calls = [] ∧
    (remove user permission id findOneResult started ended).calls =
      [StoreCall.findOne id] ∧
    (getPermissions user permission id findOneResult started ended).calls =
      [StoreCall.findOne id] ∧
    (addPermission user permission id item findOneResult started
      ended).calls = [] ∧
    (removePermission user permission id permissionId findOneResult started
      ended).calls = [] := by
  simp [getAll, getOne, save, remove, getPermissions, addPermission,
    removePermission, h]

/-- A denied delete call issues only its pre-resolution fetch, and a
denied create-or-update call issues no store call. -/
theorem denied_no_store_write_instance :
    permNone.granted = false ∧
    (remove user0 permNone "user" (some role0) 0 0).calls =
      [StoreCall.findOne "user"] ∧
    (save user0 permNone dto0 (fun r => r) 0 0).calls = [] := by
  refine ⟨rfl, ?_, ?_⟩
  · exact (denied_no_store_write user0 permNone (some []) (some role0) dto0
      (fun r => r) permA "user" "1" 0 0 rfl).2.2.2.1
  · exact (denied_no_store_write user0 permNone (some []) (some role0) dto0
      (fun r => r) permA "user" "1" 0 0 rfl).2.2.1

/-- Claim C3: every operation emits exactly one audit event exactly when
it returns a result to the caller (even remove-from-collection, whose
granted path may issue two save calls), and emits none when it fails —
whether denied or by a not-found error. -/
theorem one_event_iff_success
    (user : User) (permission : AuthPermission)
    (findResult : Option (List Role)) (findOneResult : Option Role)
    (data : RoleDto) (saveResp : Role → Role) (item : Permission)
    (id permissionId : String) (started ended : Int) :
    ((getAll user permission findResult started ended).events.length =
      if opSucceeded (getAll user permission findResult started ended)
      then 1 else 0) ∧
    ((getOne user permission id findOneResult started ended).events.length =
      if opSucceeded (getOne user permission id findOneResult started ended)
      then 1 else 0) ∧
    ((save user permission data saveResp started ended).events.length =
      if opSucceeded (save user permission data saveResp started ended)
      then 1 else 0) ∧
    ((remove user permission id findOneResult started ended).events.length =
      if opSucceeded (remove user permission id findOneResult started ended)
      then 1 else 0) ∧
    ((getPermissions user permission id findOneResult started
        ended).events.length =
      if opSucceeded (getPermissions user permission id findOneResult
        started ended)
      then 1 else 0) ∧
    ((addPermission user permission id item findOneResult started
        ended).events.length =
      if opSucceeded (addPermission user permission id item findOneResult
        started ended)
      then 1 else 0) ∧
    ((removePermission user permission id permissionId findOneResult started
        ended).events.length =
      if opSucceeded (removePermission user permission id permissionId
        findOneResult started ended)
      then 1 else 0) := by
  refine ⟨?_, ?_, ?_, ?_, ?_, ?_, ?_⟩
  · cases hg : permission.granted <;> cases findResult <;>
      simp [getAll, opSucceeded, hg]
  · cases hg : permission.granted <;> cases findOneResult <;>
      simp [getOne, opSucceeded, hg]
  · cases hg : permission.granted <;> simp [save, opSucceeded, hg]
  · cases hg : permission.granted <;> cases findOneResult <;>
      simp [remove, opSucceeded, hg]
  · cases hg : permission.granted <;> cases findOneResult <;>
      simp [getPermissions, opSucceeded, hg]
  · cases hg : permission.granted <;> cases findOneResult <;>
      simp [addPermission, opSucceeded, hg]
  · cases hg : permission.granted <;> cases findOneResult <;>
      simp [removePermission, opSucceeded, hg]

/-- Claim C4: a granted create-or-update persists exactly the resolved
filter applied to the caller's input — the store's save trace is the
single call carrying `permission.filterDto data`, so any field the
attribute mask removed from the filtered value is absent from what is
persisted. -/
theorem save_persists_filtered_input
    (user : User) (permission : AuthPermission) (data : RoleDto)
    (saveResp : Role → Role) (started ended : Int)
    (h : permission.granted = true) :
    (save user permission data saveResp started ended).calls =
      [StoreCall.save (permission.filterDto data)] ∧
    savedRecords (save user permission data saveResp started ended).calls =
      [permission.filterDto data] := by
  simp [save, savedRecords, h]

/-- A granted create-or-update call persists the filtered payload. -/
theorem save_persists_filtered_input_instance :
    permAll.granted = true ∧
    (save user0 permAll dto0 (fun r => r) 0 0).calls =
      [StoreCall.save (permAll.filterDto dto0)] := by
  exact ⟨rfl, (save_persists_filtered_input user0 permAll dto0 (fun r => r)
    0 0 rfl).1⟩

/-- Claim C10: a granted create-or-update returns the filtered input as it
was before persistence — `permission.filterDto data`, for every store save
response `saveResp` — while the emitted event's object is the spread of
the record the store returned from the save call. -/
theorem save_returns_prefiltered_value
    (user : User) (permission : AuthPermission) (data : RoleDto)
    (saveResp : Role → Role) (started ended : Int)
    (h : permission.granted = true) :
    (save user permission data saveResp started ended).result =
      .ok (permission.filterDto data) ∧
    (save user permission data saveResp started ended).events.map
        (fun ev => ev.object) =
      [some (.spreadRole (saveResp (permission.filterDto data)) resource)]
      := by
  simp [save, h]

/-- With a store that rewrites the id on save, the returned record is
still the pre-save filtered input while the event object carries the
store-modified record. -/
theorem save_returns_prefiltered_value_instance :
    permAll.granted = true ∧
    (save user0 permAll dto0 (fun r => { r with id := "generated" })
        0 0).result = .ok (permAll.filterDto dto0) ∧
    (save user0 permAll dto0 (fun r => { r with id := "generated" })
        0 0).events.map (fun ev => ev.object) =
      [some (.spreadRole
        { permAll.filterDto dto0 with id := "generated" } resource)] := by
  refine ⟨rfl, ?_, ?_⟩
  · exact (save_returns_prefiltered_value user0 permAll dto0
      (fun r => { r with id := "generated" }) 0 0 rfl).1
  · exact (save_returns_prefiltered_value user0 permAll dto0
      (fun r => { r with id := "generated" }) 0 0 rfl).2

/-- Claim C7: a granted list call over an empty store collection succeeds
with `length = 0` and `total = 0`, and the plural not-found error is
raised exactly when the store signals absence (a missing collection)
rather than an empty row set. -/
theorem list_empty_is_success
    (user : User) (permission : AuthPermission) (started ended : Int)
    (h : permission.granted = true) :
    (getAll user permission (some []) started ended).result =
      .ok { data := permission.filterRoles [], length := 0, total := 0 } ∧
    (∀ findResult,
      (getAll user permission findResult started ended).result =
        .error (.recordsNotFound resource) ↔ findResult = none) := by
  constructor
  · simp [getAll, h]
  · intro fr
    cases fr <;> simp [getAll, h]

/-- A granted list call over an empty collection returns a zero-length
successful result. -/
theorem list_empty_is_success_instance :
    permAll.granted = true ∧
    (getAll user0 permAll (some []) 0 0).result =
      .ok { data := permAll.filterRoles [], length := 0, total := 0 } := by
  exact ⟨rfl, (list_empty_is_success user0 permAll 0 0 rfl).1⟩

/-- Timing contract of one emitted event relative to the recorded start
time: nonnegative duration, completion no earlier than the start, and a
duration equal to the completion time minus the start. -/
def eventTiming (started : Int) (ev : ActivityRecord) : Prop :=
  0 ≤ ev.took ∧ started ≤ ev.timestamp ∧ ev.took = ev.timestamp - started

/-- Claim C8: when the two clock readings of an operation are
non-decreasing, every audit event the operation emits has `took ≥ 0`,
`timestamp ≥` the recorded start, and `took` equal to `timestamp` minus
the recorded start. -/
theorem event_timing_bounds
    (user : User) (permission : AuthPermission)
    (findResult : Option (List Role)) (findOneResult : Option Role)
    (data : RoleDto) (saveResp : Role → Role) (item : Permission)
    (id permissionId : String) (started ended : Int)
    (h : started ≤ ended) :
    (∀ ev ∈ (getAll user permission findResult started ended).events,
      eventTiming started ev) ∧
    (∀ ev ∈ (getOne user permission id findOneResult started ended).events,
      eventTiming started ev) ∧
    (∀ ev ∈ (save user permission data saveResp started ended).events,
      eventTiming started ev) ∧
    (∀ ev ∈ (remove user permission id findOneResult started ended).events,
      eventTiming started ev) ∧
    (∀ ev ∈ (getPermissions user permission id findOneResult started
        ended).events, eventTiming started ev) ∧
    (∀ ev ∈ (addPermission user permission id item findOneResult started
        ended).events, eventTiming started ev) ∧
    (∀ ev ∈ (removePermission user permission id permissionId findOneResult
        started ended).events, eventTiming started ev) := by
  refine ⟨?_, ?_, ?_, ?_, ?_, ?_, ?_⟩
  · intro ev hev
    cases hg : permission.granted
    · simp [getAll, hg] at hev
    · cases findResult with
      | none => simp [getAll, hg] at hev
      | some rs =>
        simp [getAll, hg] at hev
        subst hev
        simp [eventTiming]
        omega
  · intro ev hev
    cases hg : permission.granted
    · simp [getOne, hg] at hev
    · cases findOneResult with
      | none => simp [getOne, hg] at hev
      | some r =>
        simp [getOne, hg] at hev
        subst hev
        simp [eventTiming]
        omega
  · intro ev hev
    cases hg : permission.granted
    · simp [save, hg] at hev
    · simp [save, hg] at hev
      subst hev
      simp [eventTiming]
      omega
  · intro ev hev
    cases hg : permission.granted
    · simp [remove, hg] at hev
    · cases findOneResult with
      | none => simp [remove, hg] at hev
      | some r =>
        simp [remove, hg] at hev
        subst hev
        simp [eventTiming]
        omega
  · intro ev hev
    cases hg : permission.granted
    · simp [getPermissions, hg] at hev
    · cases findOneResult with
      | none => simp [getPermissions, hg] at hev
      | some r =>
        simp [getPermissions, hg] at hev
        subst hev
        simp [eventTiming]
        omega
  · intro ev hev
    cases hg : permission.granted
    · simp [addPermission, hg] at hev
    · cases findOneResult with
      | none => simp [addPermission, hg] at hev
      | some r =>
        simp [addPermission, hg] at hev
        subst hev
        simp [eventTiming]
        omega
  · intro ev hev
    cases hg : permission.granted
    · simp [removePermission, hg] at hev
    · cases findOneResult with
      | none => simp [removePermission, hg] at hev
      | some r =>
        simp [removePermission, hg] at hev
        subst hev
        simp [eventTiming]
        omega

/-- The event emitted by a granted list call with readings 3 and 7 has a
duration of 4 and a completion time no earlier than the start. -/
theorem event_timing_bounds_instance :
    (3 : Int) ≤ 7 ∧
    eventTiming 3
      { actorId := user0.id, actorType := ActorType.Person, object := none,
        resource := resource, target := none, timestamp := 7, took := 4,
        type := ActivityType.READ } := by
  refine ⟨by decide, ?_⟩
  exact (event_timing_bounds user0 permAll (some [role0]) none dto0
    (fun r => r) permA "user" "1" 3 7 (by decide)).1 _ (by decide)

/-- Folding the membership scan over a collection none of whose members
matches the target id remembers nothing and appends the collection to the
accumulator unchanged. -/
lemma removeScan_foldl_nonmember (pid : String) :
    ∀ (perms : List Permission) (acc : Option Permission × List Permission),
      (∀ p ∈ perms, toString p.id ≠ pid) →
      perms.foldl
        (fun acc relation =>
          if toString relation.id == pid then (some relation, acc.2)
          else (acc.1, acc.2 ++ [relation])) acc
        = (acc.1, acc.2 ++ perms) := by
  intro perms
  induction perms with
  | nil => intro acc _; simp
  | cons p ps ih =>
    intro acc hall
    have hp : (toString p.id == pid) = false := by
      simp only [beq_eq_false_iff_ne, ne_eq]
      exact hall p (List.mem_cons_self p ps)
    rw [List.foldl_cons]
    simp only [hp, Bool.false_eq_true, if_false]
    rw [ih _ (fun q hq => hall q (List.mem_cons_of_mem p hq))]
    simp

/-- The scan over a collection with no member matching the target id finds
nothing to remove and keeps the collection intact. -/
lemma removeScan_nonmember (perms : List Permission) (pid : String)
    (h : ∀ p ∈ perms, toString p.id ≠ pid) :
    removeScan perms pid = (none, perms) := by
  unfold removeScan
  rw [removeScan_foldl_nonmember pid perms (none, []) h]
  simp

/-- The scan over a collection whose only matching member is a final
appended item removes exactly that item. -/
lemma removeScan_append_match (perms : List Permission) (item : Permission)
    (pid : String) (h : ∀ p ∈ perms, toString p.id ≠ pid)
    (hitem : toString item.id = pid) :
    removeScan (perms ++ [item]) pid = (some item, perms) := by
  unfold removeScan
  rw [List.foldl_append, removeScan_foldl_nonmember pid perms (none, []) h]
  simp [hitem]

/-- Claim C5: a granted remove-from-collection call whose target id is not
a member succeeds, re-saves the parent record with its member set
unchanged (a single save of the unmodified record), and still emits one
audit event. -/
theorem remove_nonmember_noop_still_saves_and_audits
    (user : User) (permission : AuthPermission) (id permissionId : String)
    (r : Role) (started ended : Int)
    (h : permission.granted = true)
    (hnm : ∀ p ∈ r.permissions, toString p.id ≠ permissionId) :
    (removePermission user permission id permissionId (some r) started
      ended).result = .ok (permission.filterRole r) ∧
    (removePermission user permission id permissionId (some r) started
      ended).calls = [StoreCall.findOne id, StoreCall.save r] ∧
    (removePermission user permission id permissionId (some r) started
      ended).events.length = 1 := by
  have hscan := removeScan_nonmember r.permissions permissionId hnm
  simp [removePermission, h, hscan]

/-- Removing the absent id 99 from the sample role succeeds, saves the
unchanged record once, and emits one event. -/
theorem remove_nonmember_noop_still_saves_and_audits_instance :
    permAll.granted = true ∧
    (∀ p ∈ role0.permissions, toString p.id ≠ "99") ∧
    (removePermission user0 permAll "user" "99" (some role0) 0 0).result =
      .ok (permAll.filterRole role0) ∧
    (removePermission user0 permAll "user" "99" (some role0) 0 0).calls =
      [StoreCall.findOne "user", StoreCall.save role0] := by
  refine ⟨rfl, by decide, ?_, ?_⟩
  · exact (remove_nonmember_noop_still_saves_and_audits user0 permAll "user"
      "99" role0 0 0 rfl (by decide)).1
  · exact (remove_nonmember_noop_still_saves_and_audits user0 permAll "user"
      "99" role0 0 0 rfl (by decide)).2.1

/-- Claim C6 counterexample: the sample role's membership (ids) is `[1]`;
adding `permDup` (which also has id 1) and then removing id "1" leaves the
persisted membership empty, because the removal scan removes every member
whose id matches — the sequence does not restore the original set. -/
theorem add_then_remove_changes_membership :
    lastSaved (addPermission user0 permAll "user" permDup (some role0) 0 0)
      = some role0Pushed ∧
    (lastSaved (removePermission user0 permAll "user" "1" (some role0Pushed)
        0 0)).map (fun r => r.permissions.map Permission.id) = some [] ∧
    role0.permissions.map Permission.id = [1] := by
  decide

/-- Claim C6 (amended): when no existing member of the role's collection
shares the item's id, a granted add-to-collection followed by a granted
remove-from-collection with that id restores the original membership: the
add persists the original collection with the item appended, and the
removal persists exactly the original record. -/
theorem add_then_remove_fresh_restores
    (user : User) (permission : AuthPermission) (role : Role)
    (item : Permission) (s1 e1 s2 e2 : Int)
    (h : permission.granted = true)
    (hfresh : ∀ p ∈ role.permissions, toString p.id ≠ toString item.id) :
    lastSaved (addPermission user permission role.id item (some role) s1 e1)
      = some { role with permissions := role.permissions ++ [item] } ∧
    lastSaved (removePermission user permission role.id (toString item.id)
        (some { role with permissions := role.permissions ++ [item] })
        s2 e2) = some role := by
  constructor
  · simp [addPermission, h, lastSaved, savedRecords]
  · have hscan := removeScan_append_match role.permissions item
      (toString item.id) hfresh rfl
    simp [removePermission, h, hscan, lastSaved, savedRecords]

/-- Adding the fresh permission `permC` to the sample role and removing
its id restores the original record. -/
theorem add_then_remove_fresh_restores_instance :
    permAll.granted = true ∧
    (∀ p ∈ role0.permissions, toString p.id ≠ toString permC.id) ∧
    lastSaved (removePermission user0 permAll role0.id (toString permC.id)
        (some { role0 with permissions := role0.permissions ++ [permC] })
        0 0) = some role0 := by
  refine ⟨rfl, by decide, ?_⟩
  exact (add_then_remove_fresh_restores user0 permAll role0 permC 0 0 0 0
    rfl (by decide)).2

/-- Claim C9 counterexample: a granted add-to-collection with `permDup`,
whose id 1 is already the identity of a member of the sample role's
collection, persists a collection holding two members with that identity. -/
theorem add_existing_id_duplicates :
    (lastSaved (addPermission user0 permAll "user" permDup (some role0)
        0 0)).map
      (fun r => r.permissions.countP (fun p => p.id == permDup.id))
      = some 2 := by
  decide

/-- Claim C9 (amended): add-to-collection appends the item to the
collection unconditionally and enforces no membership-uniqueness: when
some member already has the item's id, the persisted collection counts at
least two members with that identity. -/
theorem add_appends_unconditionally
    (user : User) (permission : AuthPermission) (id : String)
    (item : Permission) (r : Role) (started ended : Int)
    (h : permission.granted = true)
    (hmem : ∃ p ∈ r.permissions, p.id = item.id) :
    lastSaved (addPermission user permission id item (some r) started ended)
      = some { r with permissions := r.permissions ++ [item] } ∧
    2 ≤ (r.permissions ++ [item]).countP (fun p => p.id == item.id) := by
  constructor
  · simp [addPermission, h, lastSaved, savedRecords]
  · rw [List.countP_append]
    have h1 : 0 < r.permissions.countP (fun p => p.id == item.id) := by
      rw [List.countP_pos_iff]
      rcases hmem with ⟨p, hp, hpe⟩
      exact ⟨p, hp, by simp [hpe]⟩
    have h2 : List.countP (fun p => p.id == item.id) [item] = 1 := by
      simp
    omega

/-- Adding `permDup` to the sample role persists the pushed collection,
which holds two members with identity 1. -/
theorem add_appends_unconditionally_instance :
    permAll.granted = true ∧
    (∃ p ∈ role0.permissions, p.id = permDup.id) ∧
    lastSaved (addPermission user0 permAll "user" permDup (some role0) 0 0)
      = some { role0 with permissions := role0.permissions ++ [permDup] }
      := by
  refine ⟨rfl, ⟨permA, by decide, by decide⟩, ?_⟩
  exact (add_appends_unconditionally user0 permAll "user" permDup role0 0 0
    rfl ⟨permA, by decide, by decide⟩).1
